import Mathlib

/-!
Shallow embedding of the DiskANN-style vector index access method
(repository brianjking/pgvectorscale, crate timescale_vector), restricted
to the parts needed for the claims under verification:

* meta_page.rs : MetaPage header/body, storage-type discriminant,
  V1 -> V2 migration in MetaPage.fetch, update_init_ids / update_pq_pointer;
* build.rs     : ambuild option validation, the heap-scan build callback,
  finalize_index_build, aminsert;
* scan.rs      : amrescan orderby-key validation, TSVResponseIterator.next
  (tombstone skipping, pinned buffer), amendscan.

Machine integers (u32 block numbers, u16 offsets, counts) are modelled as
Nat: none of the verified paths can overflow them.  The f64 fields
(max_alpha, the 1.3 graph slack factor) are modelled as rationals; for the
slack factor the only use is ceil(num_neighbors * 1.3) where the f64
rounding provably coincides with the exact rational result for every u32
input (see the comment at GRAPH_SLACK_FACTOR).

Code that build.rs calls but that is not part of the sources under
verification (graph.rs, graph_neighbor_store.rs, the page/tape utils) is
modelled from the specification; each such definition carries a doc
comment starting with "Modelled from the spec:".
-/

/-- ItemPointer from util (block_number: u32, offset: u16). Identifies an
item either in the host table (HeapPointer) or in the index's own pages
(IndexPointer). -/
structure ItemPointer where
  block_number : Nat
  offset : Nat
deriving DecidableEq, Repr

/-- IndexPointer is an alias for ItemPointer (util mod). -/
abbrev IndexPointer := ItemPointer

/-- HeapPointer is an alias for ItemPointer (util mod). -/
abbrev HeapPointer := ItemPointer

/-- InvalidOffsetNumber from pgrx/pg_sys: the reserved offset 0, used to
tombstone a deleted heap row. -/
def InvalidOffsetNumber : Nat := 0

/-- StorageType from storage.rs. -/
inductive StorageType where
  | BqSpeedup
  | PqCompression
  | Plain
deriving DecidableEq, Repr

/-- PageType from util/page.rs, as listed by the spec's data model. -/
inductive PageType where
  | Meta
  | MetaV1
  | Node
  | PqBlob
  | BqBlob
deriving DecidableEq, Repr

/-- TSV_MAGIC_NUMBER from meta_page.rs. -/
def TSV_MAGIC_NUMBER : Nat := 768756476

/-- TSV_VERSION from meta_page.rs. -/
def TSV_VERSION : Nat := 2

/-- GRAPH_SLACK_FACTOR from meta_page.rs (1.3_f64), modelled as the exact
rational 13/10.  The code computes (n as f64 * 1.3).ceil(); because the
nearest f64 to 1.3 exceeds 13/10 by exactly 1/(5*2^52), the correctly
rounded f64 product equals the real number 13n/10 whenever 10 divides 13n
and otherwise lies strictly inside the same unit interval, so the f64 ceil
agrees with the exact rational ceil for every u32 n. -/
def GRAPH_SLACK_FACTOR : ℚ := 13 / 10

/-- MetaPage body from meta_page.rs (the version-2 layout, stored at
offset 2 of page 0). -/
structure MetaPage where
  magic_number : Nat
  version : Nat
  num_dimensions : Nat
  num_neighbors : Nat
  search_list_size : Nat
  max_alpha : ℚ
  init_ids_block_number : Nat
  init_ids_offset : Nat
  use_pq : Bool
  pq_vector_length : Nat
  pq_block_number : Nat
  pq_block_offset : Nat
  use_bq : Bool
deriving DecidableEq, Repr

/-- MetaPageHeader from meta_page.rs (stored at offset 1 of page 0). -/
structure MetaPageHeader where
  magic_number : Nat
  version : Nat
deriving DecidableEq, Repr

/-- MetaPage::get_num_neighbors. -/
def MetaPage.get_num_neighbors (m : MetaPage) : Nat :=
  m.num_neighbors

/-- MetaPage::get_use_pq (private getter in meta_page.rs). -/
def MetaPage.get_use_pq (m : MetaPage) : Bool :=
  m.use_pq

/-- MetaPage::get_storage_type from meta_page.rs. -/
def MetaPage.get_storage_type (m : MetaPage) : StorageType :=
  if m.get_use_pq then
    StorageType.PqCompression
  else if m.use_bq then
    StorageType.BqSpeedup
  else
    StorageType.Plain

/-- MetaPage::get_max_neighbors_during_build from meta_page.rs:
((num_neighbors as f64) * GRAPH_SLACK_FACTOR).ceil() as usize. -/
def MetaPage.get_max_neighbors_during_build (m : MetaPage) : Nat :=
  (Int.ceil ((m.get_num_neighbors : ℚ) * GRAPH_SLACK_FACTOR)).toNat

/-- Arithmetic bridge: the rational ceiling of 13n/10 is the natural
number (13n + 9) / 10 (truncating division). -/
theorem ceil_slack_eq_div (n : ℕ) :
    Int.ceil ((n : ℚ) * (13 / 10)) = ((13 * n + 9) / 10 : ℕ) := by
  have hd : 10 * ((13 * n + 9) / 10) + (13 * n + 9) % 10 = 13 * n + 9 :=
    Nat.div_add_mod _ _
  have hm : (13 * n + 9) % 10 < 10 := Nat.mod_lt _ (by norm_num)
  have hdq : (10 : ℚ) * (((13 * n + 9) / 10 : ℕ) : ℚ)
      + (((13 * n + 9) % 10 : ℕ) : ℚ) = 13 * (n : ℚ) + 9 := by
    exact_mod_cast congrArg (fun k : ℕ => (k : ℚ)) hd
  have hmq9 : (((13 * n + 9) % 10 : ℕ) : ℚ) ≤ 9 := by
    exact_mod_cast Nat.lt_succ_iff.mp hm
  have hmq0 : (0 : ℚ) ≤ (((13 * n + 9) % 10 : ℕ) : ℚ) := by positivity
  rw [Int.ceil_eq_iff]
  refine ⟨?_, ?_⟩
  · rw [Int.cast_natCast]
    linarith
  · rw [Int.cast_natCast]
    linarith

/-- C4: get_storage_type returns PqCompression iff use_pq; otherwise
BqSpeedup iff use_bq; otherwise Plain.  In particular, when both flags are
set, PQ takes precedence. -/
theorem get_storage_type_discriminant (m : MetaPage) :
    (m.get_storage_type = StorageType.PqCompression ↔ m.use_pq = true) ∧
    (m.get_storage_type = StorageType.BqSpeedup ↔
      (m.use_pq = false ∧ m.use_bq = true)) ∧
    (m.get_storage_type = StorageType.Plain ↔
      (m.use_pq = false ∧ m.use_bq = false)) := by
  cases hp : m.use_pq <;> cases hb : m.use_bq <;>
    simp [MetaPage.get_storage_type, MetaPage.get_use_pq, hp, hb]

/-- C7: get_max_neighbors_during_build returns the ceiling of
num_neighbors * 1.3, i.e. the natural number (13 * N + 9) / 10. -/
theorem get_max_neighbors_during_build_ceil (m : MetaPage) :
    m.get_max_neighbors_during_build = (13 * m.get_num_neighbors + 9) / 10 := by
  unfold MetaPage.get_max_neighbors_during_build GRAPH_SLACK_FACTOR
  rw [ceil_slack_eq_div, Int.toNat_natCast]

/-- MetaPageV1 from meta_page.rs: the version-1 metadata layout used by
extension versions before 0.0.3 (no use_bq field, raw struct in the page
contents). -/
structure MetaPageV1 where
  magic_number : Nat
  version : Nat
  num_dimensions : Nat
  num_neighbors : Nat
  search_list_size : Nat
  max_alpha : ℚ
  init_ids_block_number : Nat
  init_ids_offset : Nat
  use_pq : Bool
  pq_vector_length : Nat
  pq_block_number : Nat
  pq_block_offset : Nat
deriving DecidableEq, Repr

/-- MetaPageV1::page_get_meta from meta_page.rs: reads the V1 struct from
page 0 and asserts magic_number == TSV_MAGIC_NUMBER and version == 1.
none models the assertion aborting. -/
def MetaPageV1.page_get_meta (m : MetaPageV1) : Option MetaPageV1 :=
  if m.magic_number = TSV_MAGIC_NUMBER ∧ m.version = 1 then some m else none

/-- MetaPageV1::get_new_meta from meta_page.rs: convert the old layout to
the new one, carrying every stored field over, stamping the current magic
number and version, and clearing the new use_bq flag. -/
def MetaPageV1.get_new_meta (old : MetaPageV1) : MetaPage :=
  { magic_number := TSV_MAGIC_NUMBER
    version := TSV_VERSION
    num_dimensions := old.num_dimensions
    num_neighbors := old.num_neighbors
    search_list_size := old.search_list_size
    max_alpha := old.max_alpha
    init_ids_block_number := old.init_ids_block_number
    init_ids_offset := old.init_ids_offset
    use_pq := old.use_pq
    pq_vector_length := old.pq_vector_length
    pq_block_number := old.pq_block_number
    pq_block_offset := old.pq_block_offset
    use_bq := false }

/-- State of page 0 of the index relation: either the old V1 layout
(page type MetaV1, raw struct) or the current layout (page type Meta,
header item at offset 1 and body item at offset 2). -/
inductive MetaBlock where
  | metaV1 (body : MetaPageV1)
  | meta (header : MetaPageHeader) (body : MetaPage)
deriving DecidableEq, Repr

/-- Page type stored in the opaque area of page 0. -/
def MetaBlock.get_type : MetaBlock → PageType
  | MetaBlock.metaV1 _ => PageType.MetaV1
  | MetaBlock.meta _ _ => PageType.Meta

/-- MetaPage::write_to_page from meta_page.rs: serialize a header built
from the meta's own magic/version (asserting they are the current
constants) at offset 1 and the body at offset 2. -/
def MetaPage.write_to_page (m : MetaPage) : Option MetaBlock :=
  if m.magic_number = TSV_MAGIC_NUMBER ∧ m.version = TSV_VERSION then
    some (MetaBlock.meta { magic_number := m.magic_number, version := m.version } m)
  else
    none

/-- MetaPage::get_meta_from_page from meta_page.rs: check the header's
magic/version, then deserialize the body and check its magic/version. -/
def MetaPage.get_meta_from_page (header : MetaPageHeader) (body : MetaPage) :
    Option MetaPage :=
  if header.magic_number = TSV_MAGIC_NUMBER ∧ header.version = TSV_VERSION ∧
      body.magic_number = TSV_MAGIC_NUMBER ∧ body.version = TSV_VERSION then
    some body
  else
    none

/-- Reading the stored meta item back from a page-0 state (the
get_item/get_meta_from_page sequence used by overwrite's read-back check
and by fetch); a V1 page has no V2 body item. -/
def MetaBlock.read_meta : MetaBlock → Option MetaPage
  | MetaBlock.meta header body => MetaPage.get_meta_from_page header body
  | MetaBlock.metaV1 _ => none

/-- MetaPage::overwrite from meta_page.rs: reinit page 0 with page type
Meta and the new layout, then read the page back, erroring unless the page
type is Meta and the stored meta equals the one just written. -/
def MetaPage.overwrite (new_meta : MetaPage) : Option MetaBlock :=
  new_meta.write_to_page.bind (fun blk =>
    if blk.get_type = PageType.Meta then
      blk.read_meta.bind (fun meta =>
        if meta = new_meta then some blk else none)
    else
      none)

/-- MetaPage::fetch from meta_page.rs: read page 0; if its page type is
MetaV1, convert the old struct, rewrite page 0 in the new layout and
return the new meta; otherwise deserialize the stored V2 meta.  The result
pairs the fetched MetaPage with the (possibly rewritten) page-0 state;
none models an assertion/error abort. -/
def MetaPage.fetch : MetaBlock → Option (MetaPage × MetaBlock)
  | MetaBlock.metaV1 old =>
    old.page_get_meta.bind (fun old_meta =>
      (MetaPage.overwrite old_meta.get_new_meta).bind (fun blk =>
        some (old_meta.get_new_meta, blk)))
  | MetaBlock.meta header body =>
    (MetaPage.get_meta_from_page header body).bind (fun m =>
      some (m, MetaBlock.meta header body))

/-- Unfolding equation for overwrite. -/
theorem overwrite_eq (new_meta : MetaPage) :
    MetaPage.overwrite new_meta = new_meta.write_to_page.bind (fun blk =>
      if blk.get_type = PageType.Meta then
        blk.read_meta.bind (fun meta =>
          if meta = new_meta then some blk else none)
      else
        none) := rfl

/-- Unfolding equation for fetch on a V1 page. -/
theorem fetch_metaV1_eq (old : MetaPageV1) :
    MetaPage.fetch (MetaBlock.metaV1 old) =
      old.page_get_meta.bind (fun old_meta =>
        (MetaPage.overwrite old_meta.get_new_meta).bind (fun blk =>
          some (old_meta.get_new_meta, blk))) := rfl

/-- Unfolding equation for fetch on a current-format page. -/
theorem fetch_meta_eq (header : MetaPageHeader) (body : MetaPage) :
    MetaPage.fetch (MetaBlock.meta header body) =
      (MetaPage.get_meta_from_page header body).bind (fun m =>
        some (m, MetaBlock.meta header body)) := rfl

/-- MetaPage::update_init_ids from meta_page.rs: asserts that exactly one
init id is supplied, then overwrites only the init-id block/offset fields
of the stored meta body and commits.  none models the assertion failing. -/
def MetaPage.update_init_ids (m : MetaPage) (init_ids : List IndexPointer) :
    Option MetaPage :=
  if h : init_ids.length = 1 then
    let id := init_ids.get ⟨0, by omega⟩
    some { m with
            init_ids_block_number := id.block_number
            init_ids_offset := id.offset }
  else
    none

/-- MetaPage::update_pq_pointer from meta_page.rs: overwrites only the
quantizer-blob block/offset fields of the stored meta body and commits. -/
def MetaPage.update_pq_pointer (m : MetaPage) (pq_pointer : IndexPointer) :
    MetaPage :=
  { m with
      pq_block_number := pq_pointer.block_number
      pq_block_offset := pq_pointer.offset }

/-- C3: fetching a MetaV1 page rewrites page 0 in the new layout with all
old fields preserved and version 2, returns the new-format MetaPage, and
afterwards every fetch sees a Meta (V2) page, returns the same meta and
leaves the page unchanged (so the migration branch runs exactly once). -/
theorem fetch_migrates_meta_v1_once (v1 : MetaPageV1)
    (hmagic : v1.magic_number = TSV_MAGIC_NUMBER) (hver : v1.version = 1) :
    ∃ blk : MetaBlock,
      MetaPage.fetch (MetaBlock.metaV1 v1) = some (v1.get_new_meta, blk) ∧
      blk.get_type = PageType.Meta ∧
      v1.get_new_meta.version = 2 ∧
      v1.get_new_meta.num_dimensions = v1.num_dimensions ∧
      v1.get_new_meta.num_neighbors = v1.num_neighbors ∧
      v1.get_new_meta.search_list_size = v1.search_list_size ∧
      v1.get_new_meta.max_alpha = v1.max_alpha ∧
      v1.get_new_meta.init_ids_block_number = v1.init_ids_block_number ∧
      v1.get_new_meta.init_ids_offset = v1.init_ids_offset ∧
      v1.get_new_meta.use_pq = v1.use_pq ∧
      v1.get_new_meta.pq_vector_length = v1.pq_vector_length ∧
      v1.get_new_meta.pq_block_number = v1.pq_block_number ∧
      v1.get_new_meta.pq_block_offset = v1.pq_block_offset ∧
      MetaPage.fetch blk = some (v1.get_new_meta, blk) := by
  have h1 : v1.page_get_meta = some v1 := by
    have hc : v1.magic_number = TSV_MAGIC_NUMBER ∧ v1.version = 1 :=
      ⟨hmagic, hver⟩
    simp only [MetaPageV1.page_get_meta]
    rw [if_pos hc]
  have h2 : v1.get_new_meta.write_to_page = some (MetaBlock.meta
      { magic_number := TSV_MAGIC_NUMBER, version := TSV_VERSION }
      v1.get_new_meta) := by
    have hc : v1.get_new_meta.magic_number = TSV_MAGIC_NUMBER ∧
        v1.get_new_meta.version = TSV_VERSION := ⟨rfl, rfl⟩
    simp only [MetaPage.write_to_page]
    rw [if_pos hc]
    rfl
  have h5 : MetaPage.get_meta_from_page
      { magic_number := TSV_MAGIC_NUMBER, version := TSV_VERSION }
      v1.get_new_meta = some v1.get_new_meta := by
    show (if TSV_MAGIC_NUMBER = TSV_MAGIC_NUMBER ∧ TSV_VERSION = TSV_VERSION ∧
        v1.get_new_meta.magic_number = TSV_MAGIC_NUMBER ∧
        v1.get_new_meta.version = TSV_VERSION then
          some v1.get_new_meta else none) = some v1.get_new_meta
    rw [if_pos (⟨rfl, rfl, rfl, rfl⟩ : TSV_MAGIC_NUMBER = TSV_MAGIC_NUMBER ∧
      TSV_VERSION = TSV_VERSION ∧
      v1.get_new_meta.magic_number = TSV_MAGIC_NUMBER ∧
      v1.get_new_meta.version = TSV_VERSION)]
  have h3 : MetaPage.overwrite v1.get_new_meta = some (MetaBlock.meta
      { magic_number := TSV_MAGIC_NUMBER, version := TSV_VERSION }
      v1.get_new_meta) := by
    rw [overwrite_eq, h2, Option.some_bind]
    rw [show (MetaBlock.meta
      { magic_number := TSV_MAGIC_NUMBER, version := TSV_VERSION }
      v1.get_new_meta).get_type = PageType.Meta from rfl]
    rw [if_pos (rfl : PageType.Meta = PageType.Meta)]
    rw [show (MetaBlock.meta
      { magic_number := TSV_MAGIC_NUMBER, version := TSV_VERSION }
      v1.get_new_meta).read_meta = MetaPage.get_meta_from_page
      { magic_number := TSV_MAGIC_NUMBER, version := TSV_VERSION }
      v1.get_new_meta from rfl]
    rw [h5, Option.some_bind]
    rw [if_pos (rfl : v1.get_new_meta = v1.get_new_meta)]
  have h4 : MetaPage.fetch (MetaBlock.metaV1 v1) = some (v1.get_new_meta,
      MetaBlock.meta { magic_number := TSV_MAGIC_NUMBER, version := TSV_VERSION }
      v1.get_new_meta) := by
    rw [fetch_metaV1_eq, h1, Option.some_bind]
    rw [h3, Option.some_bind]
  have h6 : MetaPage.fetch (MetaBlock.meta
      { magic_number := TSV_MAGIC_NUMBER, version := TSV_VERSION }
      v1.get_new_meta) = some (v1.get_new_meta,
      MetaBlock.meta { magic_number := TSV_MAGIC_NUMBER, version := TSV_VERSION }
      v1.get_new_meta) := by
    rw [fetch_meta_eq, h5, Option.some_bind]
  exact ⟨MetaBlock.meta
    { magic_number := TSV_MAGIC_NUMBER, version := TSV_VERSION }
    v1.get_new_meta, h4, rfl, rfl, rfl, rfl, rfl, rfl, rfl, rfl, rfl, rfl,
    rfl, rfl, h6⟩

/-- Witness for C3 at a concrete V1 page. -/
def exampleMetaV1 : MetaPageV1 :=
  { magic_number := TSV_MAGIC_NUMBER
    version := 1
    num_dimensions := 1536
    num_neighbors := 50
    search_list_size := 100
    max_alpha := 1
    init_ids_block_number := 4
    init_ids_offset := 2
    use_pq := false
    pq_vector_length := 0
    pq_block_number := 0
    pq_block_offset := 0 }

/-- Witness for C3: the migration theorem applied to a concrete V1 page. -/
theorem fetch_migrates_meta_v1_once_witness :
    ∃ blk : MetaBlock,
      MetaPage.fetch (MetaBlock.metaV1 exampleMetaV1) =
        some (exampleMetaV1.get_new_meta, blk) ∧
      MetaPage.fetch blk = some (exampleMetaV1.get_new_meta, blk) :=
  Exists.imp (fun _blk h => ⟨h.1, h.2.2.2.2.2.2.2.2.2.2.2.2.2⟩)
    (fetch_migrates_meta_v1_once exampleMetaV1 rfl rfl)

/-- C8: update_init_ids changes only the init-id block/offset fields and
update_pq_pointer changes only the quantizer-blob block/offset fields;
every other field of the stored MetaPage body is unchanged by both. -/
theorem meta_update_frame_effects (m m' : MetaPage) (id p : ItemPointer)
    (h : m.update_init_ids [id] = some m') :
    (m'.init_ids_block_number = id.block_number ∧
     m'.init_ids_offset = id.offset ∧
     m'.magic_number = m.magic_number ∧
     m'.version = m.version ∧
     m'.num_dimensions = m.num_dimensions ∧
     m'.num_neighbors = m.num_neighbors ∧
     m'.search_list_size = m.search_list_size ∧
     m'.max_alpha = m.max_alpha ∧
     m'.use_pq = m.use_pq ∧
     m'.pq_vector_length = m.pq_vector_length ∧
     m'.pq_block_number = m.pq_block_number ∧
     m'.pq_block_offset = m.pq_block_offset ∧
     m'.use_bq = m.use_bq) ∧
    ((m.update_pq_pointer p).pq_block_number = p.block_number ∧
     (m.update_pq_pointer p).pq_block_offset = p.offset ∧
     (m.update_pq_pointer p).magic_number = m.magic_number ∧
     (m.update_pq_pointer p).version = m.version ∧
     (m.update_pq_pointer p).num_dimensions = m.num_dimensions ∧
     (m.update_pq_pointer p).num_neighbors = m.num_neighbors ∧
     (m.update_pq_pointer p).search_list_size = m.search_list_size ∧
     (m.update_pq_pointer p).max_alpha = m.max_alpha ∧
     (m.update_pq_pointer p).init_ids_block_number = m.init_ids_block_number ∧
     (m.update_pq_pointer p).init_ids_offset = m.init_ids_offset ∧
     (m.update_pq_pointer p).use_pq = m.use_pq ∧
     (m.update_pq_pointer p).pq_vector_length = m.pq_vector_length ∧
     (m.update_pq_pointer p).use_bq = m.use_bq) := by
  have he : m.update_init_ids [id] = some { m with
      init_ids_block_number := id.block_number
      init_ids_offset := id.offset } := rfl
  rw [he] at h
  injection h with h
  subst h
  exact ⟨⟨rfl, rfl, rfl, rfl, rfl, rfl, rfl, rfl, rfl, rfl, rfl, rfl, rfl⟩,
    rfl, rfl, rfl, rfl, rfl, rfl, rfl, rfl, rfl, rfl, rfl, rfl, rfl⟩

/-- Concrete V2 meta used as the C8 witness input. -/
def exampleMetaV2 : MetaPage :=
  { magic_number := TSV_MAGIC_NUMBER
    version := TSV_VERSION
    num_dimensions := 3
    num_neighbors := 50
    search_list_size := 100
    max_alpha := 1
    init_ids_block_number := 0
    init_ids_offset := 0
    use_pq := false
    pq_vector_length := 0
    pq_block_number := 0
    pq_block_offset := 0
    use_bq := false }

/-- Witness for C8 at a concrete meta page and concrete pointers. -/
theorem meta_update_frame_effects_witness :
    ({ exampleMetaV2 with
        init_ids_block_number := 7
        init_ids_offset := 3 } : MetaPage).num_neighbors
        = exampleMetaV2.num_neighbors ∧
    (exampleMetaV2.update_pq_pointer ⟨9, 4⟩).init_ids_block_number
        = exampleMetaV2.init_ids_block_number :=
  ⟨(meta_update_frame_effects exampleMetaV2 _ ⟨7, 3⟩ ⟨9, 4⟩
      rfl).1.2.2.2.2.2.1,
   (meta_update_frame_effects exampleMetaV2 { exampleMetaV2 with
        init_ids_block_number := 7
        init_ids_offset := 3 } ⟨7, 3⟩ ⟨9, 4⟩ rfl).2.2.2.2.2.2.2.2.2.1⟩

/-- One entry yielded by ListSearchResult::consume in scan.rs: the node's
heap pointer and its index pointer, produced in distance order. -/
structure LsrItem where
  heap_pointer : HeapPointer
  index_pointer : IndexPointer
deriving DecidableEq, Repr

/-- TSVResponseIterator from scan.rs.  The greedy-search state (lsr) is
abstracted to the stream of entries that the successive
greedy_search_iterate/consume steps will yield in distance order;
quantifying over an arbitrary finite stream covers every behavior of the
graph search that the loop in next can observe. -/
structure TSVResponseIterator where
  lsr : List LsrItem
  search_list_size : Nat
  current : Nat
  last_buffer : Option Nat
deriving DecidableEq, Repr

/-- Loop body of TSVResponseIterator::next from scan.rs, recursing over
the consume stream: on Some, pin the index page of the entry (replacing
last_buffer) and bump current; a tombstoned heap pointer (offset ==
InvalidOffsetNumber) continues the loop; a live one is returned; on None
the pin is dropped and None returned. -/
def iter_next_loop (search_list_size : Nat) :
    List LsrItem → Nat → Option Nat → Option HeapPointer × TSVResponseIterator
  | [], current, _last_buffer =>
    (none, { lsr := [], search_list_size := search_list_size,
             current := current, last_buffer := none })
  | item :: rest, current, _last_buffer =>
    if item.heap_pointer.offset = InvalidOffsetNumber then
      iter_next_loop search_list_size rest (current + 1)
        (some item.index_pointer.block_number)
    else
      (some item.heap_pointer,
        { lsr := rest, search_list_size := search_list_size,
          current := current + 1,
          last_buffer := some item.index_pointer.block_number })

/-- TSVResponseIterator::next from scan.rs. -/
def TSVResponseIterator.next (it : TSVResponseIterator) :
    Option HeapPointer × TSVResponseIterator :=
  iter_next_loop it.search_list_size it.lsr it.current it.last_buffer

/-- Helper for C2: the loop never returns a tombstoned heap pointer. -/
theorem iter_next_loop_no_tombstone (search_list_size : Nat)
    (l : List LsrItem) : ∀ (current : Nat) (lb : Option Nat)
    (hp : HeapPointer) (it2 : TSVResponseIterator),
    iter_next_loop search_list_size l current lb = (some hp, it2) →
    hp.offset ≠ InvalidOffsetNumber := by
  induction l with
  | nil =>
    intro current lb hp it2 h
    exact absurd (congrArg Prod.fst h) (by simp [iter_next_loop])
  | cons item rest ih =>
    intro current lb hp it2 h
    rw [iter_next_loop] at h
    split at h
    · exact ih _ _ hp it2 h
    · injection h with h1 _h2
      injection h1 with h1
      rw [← h1]
      assumption

/-- C2: whenever next returns a heap pointer, its offset differs from
InvalidOffsetNumber: tombstoned entries yielded by consume are skipped and
never surface. -/
theorem next_never_returns_tombstone (it : TSVResponseIterator)
    (hp : HeapPointer) (it2 : TSVResponseIterator)
    (h : it.next = (some hp, it2)) :
    hp.offset ≠ InvalidOffsetNumber :=
  iter_next_loop_no_tombstone it.search_list_size it.lsr it.current
    it.last_buffer hp it2 h

/-- Witness for C2: a stream whose first entry is tombstoned and whose
second is live; next skips the tombstone and the returned pointer has a
valid offset. -/
theorem next_never_returns_tombstone_witness :
    (⟨3, 7⟩ : ItemPointer).offset ≠ InvalidOffsetNumber :=
  next_never_returns_tombstone
    { lsr := [{ heap_pointer := ⟨5, 0⟩, index_pointer := ⟨2, 1⟩ },
              { heap_pointer := ⟨3, 7⟩, index_pointer := ⟨2, 2⟩ }],
      search_list_size := 10, current := 0, last_buffer := none }
    ⟨3, 7⟩
    { lsr := [], search_list_size := 10, current := 2,
      last_buffer := some 2 }
    (by rfl)

/-- Result of amrescan's scan setup (the xs_recheck flag it sets on the
scan descriptor when regular keys are present). -/
structure RescanOutcome where
  xs_recheck : Bool
deriving DecidableEq, Repr

/-- amrescan from scan.rs: panics when no order-by key or more than one is
supplied; otherwise sets xs_recheck for nkeys > 0 and initializes the
iterator state from the single order-by key.  Panics are modelled as
Except.error with the panic message. -/
def amrescan (nkeys norderbys : Nat) : Except String RescanOutcome :=
  if norderbys = 0 then
    Except.error "No order by keys provided"
  else if norderbys > 1 then
    Except.error "Too many order by provided"
  else
    Except.ok { xs_recheck := decide (nkeys > 0) }

/-- C6: amrescan proceeds exactly when one order-by key is supplied; zero
keys or more than one fail with an error. -/
theorem amrescan_requires_one_orderby (nkeys norderbys : Nat) :
    (∃ r, amrescan nkeys norderbys = Except.ok r) ↔ norderbys = 1 := by
  constructor
  · rintro ⟨r, hr⟩
    rcases norderbys with _ | _ | n
    · rw [amrescan, if_pos rfl] at hr
      exact absurd hr (by simp)
    · rfl
    · rw [amrescan, if_neg (by omega), if_pos (by omega)] at hr
      exact absurd hr (by simp)
  · rintro rfl
    exact ⟨_, rfl⟩

/-- DEBUG1 elog level from pg_sys (PostgreSQL elog.h). -/
def DEBUG1 : Nat := 14

/-- Default log_min_messages level (WARNING) from PostgreSQL elog.h. -/
def WARNING_LEVEL : Nat := 19

/-- Default client_min_messages level (NOTICE) from PostgreSQL elog.h. -/
def NOTICE_LEVEL : Nat := 18

/-- amendscan from scan.rs: computes min(log_min_messages,
client_min_messages) and, only when that is at most DEBUG1, reads the scan
state and calls end_scan, which emits the query statistics through the
debug1 log macro.  The iterator state, including its pinned buffer
(last_buffer), is never modified: the pin is released later, when the
memory context owning the scan state is deleted.  The Bool records whether
the statistics line was emitted. -/
def amendscan (log_min_messages client_min_messages : Nat)
    (iter : TSVResponseIterator) : TSVResponseIterator × Bool :=
  let min_level := min log_min_messages client_min_messages
  if min_level ≤ DEBUG1 then
    (iter, true)
  else
    (iter, false)

/-- Counterexample for C9: at the default log levels (WARNING/NOTICE) and
an iterator holding a pin on block 5, amendscan neither drops the pinned
page handle nor emits the query statistics. -/
theorem amendscan_claim_counterexample :
    ¬ ((amendscan WARNING_LEVEL NOTICE_LEVEL
          { lsr := [], search_list_size := 10, current := 3,
            last_buffer := some 5 }).1.last_buffer = none ∧
       (amendscan WARNING_LEVEL NOTICE_LEVEL
          { lsr := [], search_list_size := 10, current := 3,
            last_buffer := some 5 }).2 = true) := by
  decide

/-- C9 amended: amendscan leaves the iterator state, in particular its
pinned page handle, unchanged (the pin is dropped only when the scan's
memory context is destroyed), and it emits the query statistics exactly
when min(log_min_messages, client_min_messages) is at most DEBUG1. -/
theorem amendscan_behavior (log_min_messages client_min_messages : Nat)
    (iter : TSVResponseIterator) :
    (amendscan log_min_messages client_min_messages iter).1 = iter ∧
    (amendscan log_min_messages client_min_messages iter).2 =
      decide (min log_min_messages client_min_messages ≤ DEBUG1) := by
  by_cases h : min log_min_messages client_min_messages ≤ DEBUG1 <;>
    simp [amendscan, h]

/-- PgVector from pg_vector.rs: a detoasted float vector; the 32-bit float
entries are modelled as rationals (their values are irrelevant to the
counting claims).  A SQL NULL datum is modelled as Option.none at the call
sites, matching PgVector::from_pg_parts returning None. -/
abbrev PgVector := List ℚ

/-- NeighborWithDistance (neighbor_with_distance.rs, not under src/): an
IndexPointer paired with its distance to the owning node. -/
structure NeighborWithDistance where
  index_pointer : IndexPointer
  distance : ℚ
deriving DecidableEq, Repr

/-- Modelled from the spec: util/tape.rs is not under src/.  Tape::write
appends the item to the current page of the tape's page type, allocating a
fresh page when needed, and returns a stable fresh IndexPointer (spec 4.1:
append-only write cursor; pointers never move or repeat).  The cursor is
modelled as the count of items written so far; item k is placed at pointer
(k + 1, 1), block 0 being the meta page. -/
def Tape.write (items_written : Nat) : IndexPointer × Nat :=
  (⟨items_written + 1, 1⟩, items_written + 1)

/-- Modelled from the spec: graph_neighbor_store.rs is not under src/.
The Builder neighbor cache is the in-memory map from IndexPointer to the
node's neighbor list used during build (spec 4.5), represented as an
association list in insertion order. -/
abbrev BuilderNeighborCache := List (IndexPointer × List NeighborWithDistance)

/-- Modelled from the spec: graph.rs is not under src/.  Graph::insert
with the Builder store (spec 4.5, Insert): greedy search plus robust prune
compute the new node's neighbor list (abstracted by the new_neighbors
argument), which is recorded in the cache under the new node's pointer;
back-edges are appended (and possibly re-pruned) on the chosen targets,
which only rewrites neighbor lists of keys already present (abstracted by
the back_edges argument).  The counting claims hold for every choice of
these two functions. -/
def Graph.insert (cache : BuilderNeighborCache)
    (index_pointer : IndexPointer)
    (new_neighbors : List NeighborWithDistance)
    (back_edges : IndexPointer → List NeighborWithDistance →
      List NeighborWithDistance) : BuilderNeighborCache :=
  (cache.map (fun e => (e.1, back_edges e.1 e.2))) ++
    [(index_pointer, new_neighbors)]

/-- Abstraction of the insert-path pieces living in graph.rs (not under
src/): how the new node's pruned neighbor list is computed and how
back-edge updates rewrite existing lists. -/
structure GraphParams where
  new_neighbors : PgVector → IndexPointer → List NeighborWithDistance
  back_edges : IndexPointer → List NeighborWithDistance →
    List NeighborWithDistance

/-- BuildState from build.rs, restricted to the fields the counting claims
depend on: the ntuples counter, the tape cursor, and the graph's Builder
neighbor cache (the memory context, timings and statistics are omitted). -/
structure BuildState where
  ntuples : Nat
  tape : Nat
  builder : BuilderNeighborCache
deriving DecidableEq, Repr

/-- build_callback_internal from build.rs for one non-null row: bump
ntuples, create the node on the tape (storage.create_node serializes the
node and returns its fresh IndexPointer) and graph-insert it. -/
def build_callback_internal (gp : GraphParams) (st : BuildState)
    (vec : PgVector) : BuildState :=
  { ntuples := st.ntuples + 1
    tape := (Tape.write st.tape).2
    builder := Graph.insert st.builder (Tape.write st.tape).1
      (gp.new_neighbors vec (Tape.write st.tape).1) gp.back_edges }

/-- build_callback from build.rs: a SQL NULL vector is skipped entirely;
a non-null one runs the per-row callback inside the scoped per-row memory
context (the context reset does not affect the build state). -/
def build_callback (gp : GraphParams) (st : BuildState)
    (row : Option PgVector) : BuildState :=
  match row with
  | none => st
  | some vec => build_callback_internal gp st vec

/-- finalize_index_build from build.rs: walk the Builder cache counting
num_nodes while writing each node's (possibly re-pruned) neighbor list to
its on-page slots, then assert num_nodes == ntuples and return ntuples;
none models the assertion failing.  Pruning rewrites neighbor lists only
and cannot change the node count. -/
def finalize_index_build (st : BuildState) : Option Nat :=
  let num_nodes := st.builder.foldl (fun acc _e => acc + 1) 0
  if num_nodes = st.ntuples then some st.ntuples else none

/-- One heap scan through build_callback starting from the fresh
BuildState made by BuildState::new, followed by finalize_index_build;
shared body of do_heap_scan's three storage arms. -/
def scan_and_finalize (gp : GraphParams) (rows : List (Option PgVector)) :
    BuildState × Option Nat :=
  let bs := rows.foldl (build_callback gp)
    { ntuples := 0, tape := 0, builder := [] }
  (bs, finalize_index_build bs)

/-- do_heap_scan from build.rs: Plain storage runs a single scan; PQ and
BQ first run a training scan whose callback (build_callback_pq_train /
build_callback_bq_train) only feeds add_sample on non-null rows and
touches neither ntuples nor the graph, so the BuildState pipeline is the
same in all three arms. -/
def do_heap_scan (gp : GraphParams) (storage : StorageType)
    (rows : List (Option PgVector)) : BuildState × Option Nat :=
  match storage with
  | StorageType.Plain => scan_and_finalize gp rows
  | StorageType.PqCompression => scan_and_finalize gp rows
  | StorageType.BqSpeedup => scan_and_finalize gp rows

/-- IndexBuildResult from pg_sys as ambuild fills it in. -/
structure IndexBuildResult where
  heap_tuples : Nat
  index_tuples : Nat
deriving DecidableEq, Repr

/-- TSVIndexOptions from options.rs (the fields ambuild reads). -/
structure TSVIndexOptions where
  num_neighbors : Nat
  search_list_size : Nat
  max_alpha : ℚ
  use_pq : Bool
  pq_vector_length : Nat
  use_bq : Bool
deriving DecidableEq, Repr

/-- MetaPage::create from meta_page.rs: the first write to the new index
relation; page 0 gets a fresh header and a body with zero init ids and a
zero quantizer pointer. -/
def MetaPage.create (num_dimensions : Nat) (opt : TSVIndexOptions) :
    MetaPage :=
  { magic_number := TSV_MAGIC_NUMBER
    version := TSV_VERSION
    num_dimensions := num_dimensions
    num_neighbors := opt.num_neighbors
    search_list_size := opt.search_list_size
    max_alpha := opt.max_alpha
    init_ids_block_number := 0
    init_ids_offset := 0
    use_pq := opt.use_pq
    pq_vector_length := opt.pq_vector_length
    pq_block_number := 0
    pq_block_offset := 0
    use_bq := opt.use_bq }

/-- Conversion of do_heap_scan's asserted tuple count into the
IndexBuildResult that ambuild returns (heap_tuples = index_tuples =
ntuples); the error case models the finalize assertion aborting. -/
def assertResult : Option Nat → Except String IndexBuildResult
  | some ntuples =>
    Except.ok { heap_tuples := ntuples, index_tuples := ntuples }
  | none => Except.error "assertion failed: num_nodes == ntuples"

/-- ambuild from build.rs: validate the PQ options against the column's
dimension count (atttypmod, hence Int), assert 0 < dims < 2000, create the
meta page, run the heap scan and report ntuples as both heap_tuples and
index_tuples.  The result also carries the list of index pages written, in
order (page 0 by MetaPage::create, then one node page per tape item in
this model), so the error paths' "before any page is written" is
observable; error! panics are modelled as Except.error. -/
def ambuild (opt : TSVIndexOptions) (dimensions : Int) (gp : GraphParams)
    (rows : List (Option PgVector)) :
    List PageType × Except String IndexBuildResult :=
  if opt.use_pq = true ∧ dimensions < (opt.pq_vector_length : Int) then
    ([], Except.error "use_pq needs at least pq_vector_length dimensions")
  else if opt.use_pq = true ∧
      dimensions % (opt.pq_vector_length : Int) ≠ 0 then
    ([], Except.error "dimensions not divisible by pq_vector_length")
  else if ¬ (0 < dimensions ∧ dimensions < 2000) then
    ([], Except.error "assertion failed: dimension bounds")
  else
    let meta := MetaPage.create dimensions.toNat opt
    let scan := do_heap_scan gp meta.get_storage_type rows
    (PageType.Meta :: List.replicate scan.1.tape PageType.Node,
      assertResult scan.2)

/-- Folding the heap scan counts one tuple and one fresh builder-cache
entry per non-null row, for any starting state and any choice of the
graph.rs parameters. -/
theorem build_scan_counts (gp : GraphParams)
    (rows : List (Option PgVector)) :
    ∀ st : BuildState,
      (rows.foldl (build_callback gp) st).ntuples
        = st.ntuples + (rows.filterMap id).length ∧
      (rows.foldl (build_callback gp) st).builder.length
        = st.builder.length + (rows.filterMap id).length := by
  induction rows with
  | nil =>
    intro st
    simp
  | cons row rest ih =>
    intro st
    cases row with
    | none =>
      simpa using ih st
    | some v =>
      obtain ⟨h1, h2⟩ := ih (build_callback_internal gp st v)
      have hn : (build_callback_internal gp st v).ntuples = st.ntuples + 1 :=
        rfl
      have hb : (build_callback_internal gp st v).builder.length
          = st.builder.length + 1 := by
        simp [build_callback_internal, Graph.insert]
      constructor
      · show (rest.foldl (build_callback gp)
            (build_callback_internal gp st v)).ntuples = _
        rw [h1, hn]
        simp [List.filterMap_cons]
        omega
      · show (rest.foldl (build_callback gp)
            (build_callback_internal gp st v)).builder.length = _
        rw [h2, hb]
        simp [List.filterMap_cons]
        omega

/-- The num_nodes counter of finalize_index_build counts the builder
entries. -/
theorem builder_foldl_count (l : BuilderNeighborCache) :
    ∀ n : Nat, l.foldl (fun acc _e => acc + 1) n = n + l.length := by
  induction l with
  | nil =>
    intro n
    simp
  | cons e rest ih =>
    intro n
    simp only [List.foldl_cons, List.length_cons, ih]
    omega

/-- The scan-and-finalize pipeline over k non-null rows ends with ntuples
= k, k builder entries, and a passing finalize assertion returning k. -/
theorem scan_and_finalize_spec (gp : GraphParams)
    (rows : List (Option PgVector)) :
    (scan_and_finalize gp rows).1.ntuples = (rows.filterMap id).length ∧
    (scan_and_finalize gp rows).1.builder.length
      = (rows.filterMap id).length ∧
    (scan_and_finalize gp rows).2 = some (rows.filterMap id).length := by
  obtain ⟨h1, h2⟩ := build_scan_counts gp rows
    { ntuples := 0, tape := 0, builder := [] }
  have h1' : (rows.foldl (build_callback gp)
      { ntuples := 0, tape := 0, builder := [] }).ntuples
      = (rows.filterMap id).length := by simpa using h1
  have h2' : (rows.foldl (build_callback gp)
      { ntuples := 0, tape := 0, builder := [] }).builder.length
      = (rows.filterMap id).length := by simpa using h2
  refine ⟨h1', h2', ?_⟩
  show finalize_index_build (rows.foldl (build_callback gp)
    { ntuples := 0, tape := 0, builder := [] })
    = some (rows.filterMap id).length
  simp only [finalize_index_build]
  rw [builder_foldl_count, Nat.zero_add, h2', h1']
  rw [if_pos rfl]

/-- All three storage arms of do_heap_scan run the same BuildState
pipeline. -/
theorem do_heap_scan_eq (gp : GraphParams) (storage : StorageType)
    (rows : List (Option PgVector)) :
    do_heap_scan gp storage rows = scan_and_finalize gp rows := by
  cases storage <;> rfl

/-- C1: a build over k non-null rows (nulls skipped) counts exactly k
tuples, the finalize phase writes exactly k nodes with its
num_nodes == ntuples assertion passing, and ambuild reports k as both
heap_tuples and index_tuples, for every storage variant and every
behavior of the graph.rs insert internals. -/
theorem ambuild_counts_tuples (opt : TSVIndexOptions) (dimensions : Int)
    (gp : GraphParams) (rows : List (Option PgVector))
    (hpq : opt.use_pq = true → (opt.pq_vector_length : Int) ≤ dimensions ∧
      dimensions % (opt.pq_vector_length : Int) = 0)
    (hdim : 0 < dimensions ∧ dimensions < 2000) :
    (scan_and_finalize gp rows).1.ntuples = (rows.filterMap id).length ∧
    (scan_and_finalize gp rows).1.builder.length
      = (rows.filterMap id).length ∧
    (scan_and_finalize gp rows).2 = some (rows.filterMap id).length ∧
    (ambuild opt dimensions gp rows).2 = Except.ok
      { heap_tuples := (rows.filterMap id).length
        index_tuples := (rows.filterMap id).length } := by
  obtain ⟨hA, hB, hC⟩ := scan_and_finalize_spec gp rows
  refine ⟨hA, hB, hC, ?_⟩
  have hn1 : ¬ (opt.use_pq = true ∧
      dimensions < (opt.pq_vector_length : Int)) :=
    fun hc => absurd hc.2 (not_lt.mpr (hpq hc.1).1)
  have hn2 : ¬ (opt.use_pq = true ∧
      dimensions % (opt.pq_vector_length : Int) ≠ 0) :=
    fun hc => hc.2 (hpq hc.1).2
  have hn3 : ¬ ¬ (0 < dimensions ∧ dimensions < 2000) := not_not_intro hdim
  simp only [ambuild]
  rw [if_neg hn1, if_neg hn2, if_neg hn3]
  show assertResult (do_heap_scan gp
    (MetaPage.create dimensions.toNat opt).get_storage_type rows).2 = _
  rw [do_heap_scan_eq, hC]
  rfl

/-- Graph.rs abstraction instance used by the concrete witnesses. -/
def exampleGraphParams : GraphParams :=
  { new_neighbors := fun _vec _ip => []
    back_edges := fun _ip ns => ns }

/-- Options of a plain-storage index, used by the C1 witness. -/
def examplePlainOptions : TSVIndexOptions :=
  { num_neighbors := 50
    search_list_size := 100
    max_alpha := 1
    use_pq := false
    pq_vector_length := 0
    use_bq := false }

/-- Concrete heap rows (two vectors and one SQL NULL) for the C1
witness. -/
def exampleRows : List (Option PgVector) :=
  [some [1, 2, 3], none, some [4, 5, 6]]

/-- Witness for C1: building over two non-null rows and one null reports
2/2 and finalize writes 2 nodes. -/
theorem ambuild_counts_tuples_witness :
    (ambuild examplePlainOptions 3 exampleGraphParams exampleRows).2 =
      Except.ok { heap_tuples := 2, index_tuples := 2 } ∧
    (scan_and_finalize exampleGraphParams exampleRows).2 = some 2 :=
  ⟨(ambuild_counts_tuples examplePlainOptions 3 exampleGraphParams
      exampleRows (fun h => absurd h (by decide)) (by decide)).2.2.2,
   (ambuild_counts_tuples examplePlainOptions 3 exampleGraphParams
      exampleRows (fun h => absurd h (by decide)) (by decide)).2.2.1⟩

/-- C5: with use_pq set and a dimension count smaller than
pq_vector_length or not divisible by it, ambuild fails with a
configuration error and no index page is written (in particular
MetaPage::create never runs). -/
theorem ambuild_pq_config_error (opt : TSVIndexOptions) (dimensions : Int)
    (gp : GraphParams) (rows : List (Option PgVector))
    (hpq : opt.use_pq = true)
    (hbad : dimensions < (opt.pq_vector_length : Int) ∨
      dimensions % (opt.pq_vector_length : Int) ≠ 0) :
    (ambuild opt dimensions gp rows).1 = [] ∧
    (∃ e, (ambuild opt dimensions gp rows).2 = Except.error e) := by
  by_cases hlt : dimensions < (opt.pq_vector_length : Int)
  · simp only [ambuild]
    rw [if_pos ⟨hpq, hlt⟩]
    exact ⟨rfl, _, rfl⟩
  · have hmod : dimensions % (opt.pq_vector_length : Int) ≠ 0 := by
      rcases hbad with h | h
      · exact absurd h hlt
      · exact h
    simp only [ambuild]
    rw [if_neg (fun hc => hlt hc.2), if_pos ⟨hpq, hmod⟩]
    exact ⟨rfl, _, rfl⟩

/-- PQ options of the C5 witness (scenario 6 of the spec). -/
def examplePqOptions : TSVIndexOptions :=
  { num_neighbors := 50
    search_list_size := 100
    max_alpha := 1
    use_pq := true
    pq_vector_length := 64
    use_bq := false }

/-- Witness for C5: use_pq with dims = 1500 and pq_vector_length = 64
(1500 not divisible by 64) errors before any page is written. -/
theorem ambuild_pq_config_error_witness :
    (ambuild examplePqOptions 1500 exampleGraphParams []).1 = [] ∧
    (∃ e, (ambuild examplePqOptions 1500 exampleGraphParams []).2 =
      Except.error e) :=
  ambuild_pq_config_error examplePqOptions 1500 exampleGraphParams []
    rfl (Or.inr (by decide))

/-- State visible to one aminsert call: the node-tape cursor and the node
pointers created so far.  Graph::insert with the Disk neighbor store then
links the created node into existing pages (graph.rs, not under src/);
only the creation effect matters to this claim. -/
structure InsertState where
  tape : Nat
  nodes : List IndexPointer
deriving DecidableEq, Repr

/-- insert_storage from build.rs: create the node on a fresh tape
position (storage.create_node) and graph-insert it using the Disk
neighbor store. -/
def insert_storage (st : InsertState) : InsertState :=
  { tape := (Tape.write st.tape).2
    nodes := st.nodes ++ [(Tape.write st.tape).1] }

/-- Storage dispatch of aminsert from build.rs: each of the three match
arms loads its storage variant, calls insert_storage, and the function
then returns false. -/
def aminsert_dispatch (storage : StorageType) (st : InsertState) :
    Bool × InsertState :=
  match storage with
  | StorageType.Plain => (false, insert_storage st)
  | StorageType.PqCompression => (false, insert_storage st)
  | StorageType.BqSpeedup => (false, insert_storage st)

/-- aminsert from build.rs: a SQL NULL vector returns false immediately
with no node created and no graph mutation; otherwise the storage variant
is resolved from the fetched meta page, one node is created and inserted,
and false is returned as well. -/
def aminsert (vec : Option PgVector) (heap_pointer : HeapPointer)
    (meta : MetaPage) (st : InsertState) : Bool × InsertState :=
  match vec with
  | none => (false, st)
  | some _vec => aminsert_dispatch meta.get_storage_type st

/-- Dispatch helper: every storage arm returns false with one node
inserted. -/
theorem aminsert_dispatch_eq (storage : StorageType) (st : InsertState) :
    aminsert_dispatch storage st = (false, insert_storage st) := by
  cases storage <;> rfl

/-- C10: aminsert returns false on every input; on a null vector the
state is untouched (no node created, no graph mutation). -/
theorem aminsert_always_false (vec : Option PgVector) (hp : HeapPointer)
    (meta : MetaPage) (st : InsertState) :
    (aminsert vec hp meta st).1 = false ∧
    (aminsert none hp meta st).2 = st := by
  refine ⟨?_, rfl⟩
  cases vec with
  | none => rfl
  | some v =>
    show (aminsert_dispatch meta.get_storage_type st).1 = false
    rw [aminsert_dispatch_eq]
